import Mathlib

/-!
Verification of the orthogonal force-directed graph layout engine
(`calculateOrthogonalLayout`, the spec's `computeLayout`).

The source is translated into a shallow embedding over ℚ.  The JavaScript
runtime's numeric primitives that have no exact rational counterpart
(`Math.sqrt` on non-squares, the `Math.round(Math.cos/sin(angle) * r)`
spiral offsets) are abstracted into a `NumModel` parameter; the single
fact assumed of `sqrt` is `sqrt (q*q) = |q|`, which holds for IEEE-754
round-to-nearest square root applied to a rounded square.  Everything
else (rounding, clamping, min/max, the grid arithmetic, the iteration
structure, in-place sequential update order) is translated directly.
-/

/-- Node record: `interface EntityNode { id; x; y; width; height; data }`. -/
structure EntityNode (α : Type) where
  id : String
  x : ℚ
  y : ℚ
  width : ℚ
  height : ℚ
  data : α
deriving DecidableEq

/-- Edge record: `interface EntityEdge { source; target }`. -/
structure EntityEdge where
  source : String
  target : String
deriving DecidableEq

/-- `LayoutOptions`: every field optional; defaults are applied inside
`calculateOrthogonalLayout` (gridSize 100, padding 50, maxIterations 100,
temperature 100, coolingFactor 0.95).  `maxIterations` is modelled as a
natural number (the `for` loop runs that many times). -/
structure LayoutOptions where
  gridSize : Option ℚ := none
  padding : Option ℚ := none
  maxIterations : Option Nat := none
  temperature : Option ℚ := none
  coolingFactor : Option ℚ := none
deriving DecidableEq

/-- Abstraction of the JavaScript numeric runtime used by the engine.
`sqrt` models `Math.sqrt`; `trig r i` models the integer pair
`(Math.round(Math.cos(angle) * r), Math.round(Math.sin(angle) * r))`
for `angle = i * π / (r * 4)` in the spiral search.  The only law
required is exactness of `sqrt` on perfect squares, which IEEE-754
double arithmetic satisfies (`sqrt(x*x) = |x|` in round-to-nearest). -/
structure NumModel where
  sqrt : ℚ → ℚ
  trig : Nat → Nat → Int × Int
  sqrt_sq : ∀ q : ℚ, sqrt (q * q) = |q|

/-- `Math.round`: round to nearest, halves toward +∞ (`⌊q + 1/2⌋`). -/
def jsRound (q : ℚ) : ℤ := ⌊q + 1 / 2⌋

/-- `Math.max(Math.min(v, m), -m)` — the per-axis movement clamp. -/
def clampQ (v m : ℚ) : ℚ := max (min v m) (-m)

/-- `Math.ceil(Math.sqrt(n))` for a natural `n` (exact for the array
lengths in range of exact double arithmetic). -/
def ceilSqrtNat (n : Nat) : Nat :=
  if Nat.sqrt n * Nat.sqrt n = n then Nat.sqrt n else Nat.sqrt n + 1

/-- Initializer walk: `nodes.forEach((node, index) => { ... })` placing
node `index` at column `index % gridWidth`, row `⌊index / gridWidth⌋`,
scaled by `gridSize * 2 + padding`. -/
def initFrom (gridSize padding : ℚ) (gridWidth : Nat) :
    Nat → List (EntityNode α) → List (EntityNode α)
  | _, [] => []
  | index, node :: rest =>
    { node with
      x := ((index % gridWidth : Nat) : ℚ) * (gridSize * 2 + padding),
      y := ((index / gridWidth : Nat) : ℚ) * (gridSize * 2 + padding) }
      :: initFrom gridSize padding gridWidth (index + 1) rest

/-- The Initializer phase (source lines 37–43). -/
def initializeNodes (gridSize padding : ℚ) (nodes : List (EntityNode α)) :
    List (EntityNode α) :=
  initFrom gridSize padding (ceilSqrtNat nodes.length) 0 nodes

/-- One other node's contribution to the repulsion force accumulator
`(fx, fy)` for `node` (source lines 53–69).  Zero-distance pairs and
same-id pairs contribute nothing. -/
def repulseStep (M : NumModel) (gridSize : ℚ) (node : EntityNode α)
    (acc : ℚ × ℚ) (otherNode : EntityNode α) : ℚ × ℚ :=
  if node.id = otherNode.id then acc
  else
    let dx := node.x - otherNode.x
    let dy := node.y - otherNode.y
    let distance := M.sqrt (dx * dx + dy * dy)
    if 0 < distance then
      let minDistance := gridSize * 1.5
      let force :=
        if distance < minDistance then gridSize * 4 / (distance * distance)
        else min (gridSize * 2 / (distance * distance)) gridSize
      (acc.1 + dx / distance * force, acc.2 + dy / distance * force)
    else acc

/-- Repulsion update of the node at position `i`: accumulate forces
against the current state of every other node, then move with the
temperature-scaled, clamped displacement (source lines 49–75). -/
def repulseOne (M : NumModel) (gridSize currentTemp : ℚ)
    (ns : List (EntityNode α)) (i : Nat) : List (EntityNode α) :=
  match ns[i]? with
  | none => ns
  | some node =>
    let f := ns.foldl (repulseStep M gridSize node) (0, 0)
    let maxMovement := gridSize * 0.5
    ns.set i
      { node with
        x := node.x + clampQ (f.1 * currentTemp) maxMovement,
        y := node.y + clampQ (f.2 * currentTemp) maxMovement }

/-- The repulsion pass: sequential in-place update in index order. -/
def repulsePass (M : NumModel) (gridSize currentTemp : ℚ)
    (ns : List (EntityNode α)) : List (EntityNode α) :=
  (List.range ns.length).foldl (repulseOne M gridSize currentTemp) ns

/-- Replace the first element satisfying `p` (the object returned by
`nodes.find`, mutated in place). -/
def setFirst (p : EntityNode α → Bool) (f : EntityNode α → EntityNode α) :
    List (EntityNode α) → List (EntityNode α)
  | [] => []
  | n :: ns => if p n then f n :: ns else n :: setFirst p f ns

/-- Attraction update for one edge (source lines 78–101): look up both
endpoints by id; if either is missing, or the distance is zero, do
nothing; otherwise move source toward target and target toward source
by the same clamped amount. -/
def attractOne (M : NumModel) (gridSize currentTemp : ℚ)
    (ns : List (EntityNode α)) (edge : EntityEdge) : List (EntityNode α) :=
  match ns.find? (fun n => n.id == edge.source),
        ns.find? (fun n => n.id == edge.target) with
  | some sourceNode, some targetNode =>
    let dx := targetNode.x - sourceNode.x
    let dy := targetNode.y - sourceNode.y
    let distance := M.sqrt (dx * dx + dy * dy)
    if 0 < distance then
      let force := min (distance / (gridSize * 2)) (gridSize * 0.5)
      let fx := dx / distance * force
      let fy := dy / distance * force
      let maxMovement := gridSize * 0.5
      let mx := clampQ (fx * currentTemp) maxMovement
      let my := clampQ (fy * currentTemp) maxMovement
      setFirst (fun n => n.id == edge.target)
        (fun n => { n with x := n.x - mx, y := n.y - my })
        (setFirst (fun n => n.id == edge.source)
          (fun n => { n with x := n.x + mx, y := n.y + my }) ns)
    else ns
  | _, _ => ns

/-- The candidate enumeration order of the spiral search: radius `r`
from 1 to 3, and for each radius `r * 8` angular steps `i`. -/
def spiralPairs : List (Nat × Nat) :=
  (List.range 3).flatMap fun r0 =>
    (List.range ((r0 + 1) * 8)).map fun i => (r0 + 1, i)

/-- One spiral-search step over the `(foundX, foundY, foundPosition)`
state (source lines 124–143): once a position is found the remaining
candidates are skipped. -/
def spiralStep (M : NumModel) (gridSize : ℚ) (node : EntityNode α)
    (ns : List (EntityNode α)) (roundedX roundedY : ℚ)
    (st : ℚ × ℚ × Bool) (ri : Nat × Nat) : ℚ × ℚ × Bool :=
  if st.2.2 then st
  else
    let off := M.trig ri.1 ri.2
    let testX := roundedX + (off.1 : ℚ) * gridSize
    let testY := roundedY + (off.2 : ℚ) * gridSize
    let noOverlap := ns.all fun otherNode =>
      otherNode.id == node.id ||
        decide (gridSize ≤ |testX - otherNode.x|) ||
        decide (gridSize ≤ |testY - otherNode.y|)
    if noOverlap then (testX, testY, true) else st

/-- Grid-snapping update of the node at position `i` (source lines
104–151): round per axis to the nearest multiple of `gridSize`; on
conflict with any other node's current position run the bounded spiral
search, keeping the rounded position if nothing conflict-free is found. -/
def snapOne (M : NumModel) (gridSize : ℚ)
    (ns : List (EntityNode α)) (i : Nat) : List (EntityNode α) :=
  match ns[i]? with
  | none => ns
  | some node =>
    let roundedX := (jsRound (node.x / gridSize) : ℚ) * gridSize
    let roundedY := (jsRound (node.y / gridSize) : ℚ) * gridSize
    let hasOverlap := ns.any fun otherNode =>
      !(otherNode.id == node.id) &&
        decide (|roundedX - otherNode.x| < gridSize) &&
        decide (|roundedY - otherNode.y| < gridSize)
    if hasOverlap then
      let st := spiralPairs.foldl
        (spiralStep M gridSize node ns roundedX roundedY)
        (roundedX, roundedY, false)
      ns.set i { node with x := st.1, y := st.2.1 }
    else
      ns.set i { node with x := roundedX, y := roundedY }

/-- The grid-snapping pass: sequential in-place update in index order. -/
def snapPass (M : NumModel) (gridSize : ℚ) (ns : List (EntityNode α)) :
    List (EntityNode α) :=
  (List.range ns.length).foldl (snapOne M gridSize) ns

/-- One iteration of the simulation loop: repulsion pass, attraction
pass over the edges in order, then the snapping pass. -/
def iterOnce (M : NumModel) (gridSize currentTemp : ℚ)
    (edges : List EntityEdge) (ns : List (EntityNode α)) :
    List (EntityNode α) :=
  snapPass M gridSize
    (edges.foldl (attractOne M gridSize currentTemp)
      (repulsePass M gridSize currentTemp ns))

/-- The iteration loop: run `count` iterations, cooling the temperature
by `coolingFactor` after each (source lines 46–155). -/
def simLoop (M : NumModel) (gridSize coolingFactor : ℚ)
    (edges : List EntityEdge) :
    Nat → List (EntityNode α) × ℚ → List (EntityNode α) × ℚ
  | 0, s => s
  | count + 1, (ns, currentTemp) =>
    simLoop M gridSize coolingFactor edges count
      (iterOnce M gridSize currentTemp edges ns, currentTemp * coolingFactor)

/-- `Math.min(...)` over a list (used on a non-empty list of coordinates). -/
def minQ : List ℚ → ℚ
  | [] => 0
  | x :: xs => xs.foldl min x

/-- The Centering Normalizer (source lines 158–166): translate all
nodes so the minimum coordinate on each axis becomes `padding`. -/
def centerNodes (padding : ℚ) (ns : List (EntityNode α)) :
    List (EntityNode α) :=
  let minX := minQ (ns.map (·.x))
  let minY := minQ (ns.map (·.y))
  ns.map fun node =>
    { node with x := node.x - (minX - padding), y := node.y - (minY - padding) }

/-- The spiral offset table actually produced by double-precision
`(Math.round(Math.cos(angle) * r), Math.round(Math.sin(angle) * r))`
for `angle = i * π / (r * 4)`, `r = 1, 2, 3`, `i < r * 8`. -/
def trigOffsets (r i : Nat) : Int × Int :=
  match r with
  | 1 => [((1:Int), (0:Int)), (1, 1), (0, 1), (-1, 1), (-1, 0), (-1, -1),
      (0, -1), (1, -1)].getD i (0, 0)
  | 2 => [((2:Int), (0:Int)), (2, 1), (1, 1), (1, 2), (0, 2), (-1, 2),
      (-1, 1), (-2, 1), (-2, 0), (-2, -1), (-1, -1), (-1, -2), (0, -2),
      (1, -2), (1, -1), (2, -1)].getD i (0, 0)
  | 3 => [((3:Int), (0:Int)), (3, 1), (3, 1), (2, 2), (2, 3), (1, 3),
      (0, 3), (-1, 3), (-1, 3), (-2, 2), (-3, 1), (-3, 1), (-3, 0),
      (-3, -1), (-3, -1), (-2, -2), (-2, -3), (-1, -3), (0, -3), (1, -3),
      (2, -3), (2, -2), (3, -2), (3, -1)].getD i (0, 0)
  | _ => (0, 0)

/-- Canonical numeric model: exact rational square root on perfect
squares (`Rat.sqrt`), and the concrete spiral offset table. -/
def canonModel : NumModel where
  sqrt := Rat.sqrt
  trig := trigOffsets
  sqrt_sq := Rat.sqrt_eq

/-- The full engine, `calculateOrthogonalLayout(nodes, edges, options)`:
apply option defaults, initialize, run the simulation/snapping loop
`maxIterations` times, then center. -/
def calculateOrthogonalLayout (M : NumModel) (nodes : List (EntityNode α))
    (edges : List EntityEdge) (options : LayoutOptions) :
    List (EntityNode α) :=
  let gridSize := options.gridSize.getD 100
  let padding := options.padding.getD 50
  let maxIterations := options.maxIterations.getD 100
  let temperature := options.temperature.getD 100
  let coolingFactor := options.coolingFactor.getD 0.95
  centerNodes padding
    (simLoop M gridSize coolingFactor edges maxIterations
      (initializeNodes gridSize padding nodes, temperature)).1

/-! ### Basic preservation lemmas -/

/-- The algorithm-invariant part of a node: everything except position. -/
def frame (n : EntityNode α) : String × ℚ × ℚ × α := (n.id, n.width, n.height, n.data)

/-- The id list of a node collection. -/
def ids (ns : List (EntityNode α)) : List String := ns.map (·.id)

theorem frames_initFrom (g p : ℚ) (w : Nat) :
    ∀ (i : Nat) (ns : List (EntityNode α)),
      (initFrom g p w i ns).map frame = ns.map frame := by
  intro i ns
  induction ns generalizing i with
  | nil => rfl
  | cons n rest ih => simp [initFrom, frame, ih]

theorem frames_set {ns : List (EntityNode α)} {i : Nat} {node v : EntityNode α}
    (hget : ns[i]? = some node) (hfr : frame v = frame node) :
    (ns.set i v).map frame = ns.map frame := by
  induction ns generalizing i with
  | nil => simp at hget
  | cons n rest ih =>
    cases i with
    | zero =>
      simp only [List.getElem?_cons_zero, Option.some.injEq] at hget
      simp [List.set, hget, hfr]
    | succ j =>
      simp only [List.getElem?_cons_succ] at hget
      simp [List.set, ih hget]

theorem frames_repulseOne (M : NumModel) (g t : ℚ) (ns : List (EntityNode α))
    (i : Nat) : (repulseOne M g t ns i).map frame = ns.map frame := by
  unfold repulseOne
  cases hget : ns[i]? with
  | none => rfl
  | some node => exact frames_set hget rfl

theorem frames_foldl {β : Type} {f : List (EntityNode α) → β → List (EntityNode α)}
    (hf : ∀ ns b, (f ns b).map frame = ns.map frame) :
    ∀ (l : List β) (ns : List (EntityNode α)),
      (l.foldl f ns).map frame = ns.map frame := by
  intro l
  induction l with
  | nil => intro ns; rfl
  | cons b rest ih => intro ns; rw [List.foldl_cons, ih, hf]

theorem frames_repulsePass (M : NumModel) (g t : ℚ) (ns : List (EntityNode α)) :
    (repulsePass M g t ns).map frame = ns.map frame :=
  frames_foldl (frames_repulseOne M g t) _ ns

theorem frames_setFirst (p : EntityNode α → Bool) (f : EntityNode α → EntityNode α)
    (hf : ∀ n, frame (f n) = frame n) :
    ∀ ns : List (EntityNode α), (setFirst p f ns).map frame = ns.map frame := by
  intro ns
  induction ns with
  | nil => rfl
  | cons n rest ih =>
    unfold setFirst
    by_cases h : p n
    · simp [h, hf]
    · simp [h, ih]

theorem frames_attractOne (M : NumModel) (g t : ℚ) (ns : List (EntityNode α))
    (e : EntityEdge) : (attractOne M g t ns e).map frame = ns.map frame := by
  unfold attractOne
  cases ns.find? (fun n => n.id == e.source) with
  | none => rfl
  | some s =>
    cases ns.find? (fun n => n.id == e.target) with
    | none => rfl
    | some tn =>
      simp only []
      split
      · refine Eq.trans (frames_setFirst _ _ ?_ _) (frames_setFirst _ _ ?_ _) <;>
          exact fun n => rfl
      · rfl

set_option maxRecDepth 4000 in
theorem frames_snapOne (M : NumModel) (g : ℚ) (ns : List (EntityNode α))
    (i : Nat) : (snapOne M g ns i).map frame = ns.map frame := by
  unfold snapOne
  cases hget : ns[i]? with
  | none => rfl
  | some node =>
    simp only []
    split
    · exact frames_set hget rfl
    · exact frames_set hget rfl

theorem frames_snapPass (M : NumModel) (g : ℚ) (ns : List (EntityNode α)) :
    (snapPass M g ns).map frame = ns.map frame :=
  frames_foldl (frames_snapOne M g) _ ns

theorem frames_iterOnce (M : NumModel) (g t : ℚ) (edges : List EntityEdge)
    (ns : List (EntityNode α)) : (iterOnce M g t edges ns).map frame = ns.map frame := by
  unfold iterOnce
  rw [frames_snapPass, frames_foldl (fun ns e => frames_attractOne M g t ns e),
    frames_repulsePass]

theorem frames_simLoop (M : NumModel) (g c : ℚ) (edges : List EntityEdge) :
    ∀ (k : Nat) (ns : List (EntityNode α)) (t : ℚ),
      (simLoop M g c edges k (ns, t)).1.map frame = ns.map frame := by
  intro k
  induction k with
  | zero => intro ns t; rfl
  | succ k ih => intro ns t; rw [simLoop, ih, frames_iterOnce]

theorem frames_centerNodes (p : ℚ) (ns : List (EntityNode α)) :
    (centerNodes p ns).map frame = ns.map frame := by
  unfold centerNodes
  simp [frame, Function.comp]

theorem frames_layout (M : NumModel) (nodes : List (EntityNode α))
    (edges : List EntityEdge) (options : LayoutOptions) :
    (calculateOrthogonalLayout M nodes edges options).map frame = nodes.map frame := by
  unfold calculateOrthogonalLayout initializeNodes
  rw [frames_centerNodes, frames_simLoop, frames_initFrom]

theorem length_map_frame (ns : List (EntityNode α)) :
    (ns.map frame).length = ns.length := List.length_map ns frame

theorem ids_eq_of_frames {ns ms : List (EntityNode α)}
    (h : ns.map frame = ms.map frame) : ids ns = ids ms := by
  have : (ns.map frame).map (·.1) = (ms.map frame).map (·.1) := by rw [h]
  simpa [ids, frame, Function.comp] using this

/-! ### Minimum-of-list lemmas -/

theorem foldl_min_mem : ∀ (xs : List ℚ) (a : ℚ),
    xs.foldl min a = a ∨ xs.foldl min a ∈ xs := by
  intro xs
  induction xs with
  | nil => intro a; exact Or.inl rfl
  | cons y ys ih =>
    intro a
    rw [List.foldl_cons]
    rcases ih (min a y) with h | h
    · rcases min_choice a y with hc | hc
      · exact Or.inl (h.trans hc)
      · exact Or.inr (by rw [h, hc]; exact List.mem_cons_self y ys)
    · exact Or.inr (List.mem_cons_of_mem y h)

theorem foldl_min_le_init : ∀ (xs : List ℚ) (a : ℚ), xs.foldl min a ≤ a := by
  intro xs
  induction xs with
  | nil => intro a; exact le_refl a
  | cons y ys ih =>
    intro a
    rw [List.foldl_cons]
    exact (ih (min a y)).trans (min_le_left a y)

theorem foldl_min_le_mem : ∀ (xs : List ℚ) (a x : ℚ), x ∈ xs →
    xs.foldl min a ≤ x := by
  intro xs
  induction xs with
  | nil => intro a x hx; simp at hx
  | cons y ys ih =>
    intro a x hx
    rw [List.foldl_cons]
    rcases List.mem_cons.mp hx with h | h
    · subst h
      exact (foldl_min_le_init ys (min a x)).trans (min_le_right a x)
    · exact ih (min a y) x h

theorem minQ_mem : ∀ {l : List ℚ}, l ≠ [] → minQ l ∈ l := by
  intro l h
  cases l with
  | nil => exact absurd rfl h
  | cons x xs =>
    rcases foldl_min_mem xs x with hm | hm
    · show List.foldl min x xs ∈ x :: xs
      rw [hm]; exact List.mem_cons_self x xs
    · exact List.mem_cons_of_mem x hm

theorem minQ_le {l : List ℚ} : ∀ x ∈ l, minQ l ≤ x := by
  cases l with
  | nil => simp
  | cons a xs =>
    intro x hx
    rcases List.mem_cons.mp hx with h | h
    · subst h; exact foldl_min_le_init xs x
    · exact foldl_min_le_mem xs a x h

/-! ### Grid alignment -/

/-- `v` is an integer multiple of the grid unit `g`. -/
def gridMul (g v : ℚ) : Prop := ∃ k : ℤ, v = k * g

theorem gridMul_round (g q : ℚ) : gridMul g ((jsRound q : ℚ) * g) :=
  ⟨jsRound q, rfl⟩

theorem gridMul_add_int (g v : ℚ) (k : ℤ) (h : gridMul g v) :
    gridMul g (v + (k : ℚ) * g) := by
  obtain ⟨j, hj⟩ := h
  exact ⟨j + k, by push_cast [hj]; ring⟩

/-- Both coordinates of the node stored at index `j` (if any) are grid
multiples. -/
def posAligned (g : ℚ) (ns : List (EntityNode α)) (j : Nat) : Prop :=
  ∀ n, ns[j]? = some n → gridMul g n.x ∧ gridMul g n.y

theorem spiralFold_aligned (M : NumModel) (g : ℚ) (node : EntityNode α)
    (ns : List (EntityNode α)) (rX rY : ℚ)
    (hX : gridMul g rX) (hY : gridMul g rY) :
    ∀ (L : List (Nat × Nat)) (st : ℚ × ℚ × Bool),
      gridMul g st.1 → gridMul g st.2.1 →
      gridMul g (L.foldl (spiralStep M g node ns rX rY) st).1 ∧
        gridMul g (L.foldl (spiralStep M g node ns rX rY) st).2.1 := by
  intro L
  induction L with
  | nil => intro st h1 h2; exact ⟨h1, h2⟩
  | cons ri rest ih =>
    intro st h1 h2
    rw [List.foldl_cons]
    apply ih
    · unfold spiralStep
      split
      · exact h1
      · dsimp only
        split
        · exact gridMul_add_int g rX _ hX
        · exact h1
    · unfold spiralStep
      split
      · exact h2
      · dsimp only
        split
        · exact gridMul_add_int g rY _ hY
        · exact h2

theorem snapOne_getElem_ne (M : NumModel) (g : ℚ) (ns : List (EntityNode α))
    (i j : Nat) (hne : j ≠ i) : (snapOne M g ns i)[j]? = ns[j]? := by
  unfold snapOne
  cases ns[i]? with
  | none => rfl
  | some node =>
    simp only []
    split <;> exact List.getElem?_set_ne hne.symm

set_option maxRecDepth 4000 in
theorem snapOne_aligned_self (M : NumModel) (g : ℚ) (ns : List (EntityNode α))
    (i : Nat) : posAligned g (snapOne M g ns i) i := by
  intro n hn
  unfold snapOne at hn
  cases hget : ns[i]? with
  | none => rw [hget] at hn; exact absurd (hget.symm.trans hn) (by simp)
  | some node =>
    rw [hget] at hn
    have hlen : i < ns.length := by
      rcases Nat.lt_or_ge i ns.length with h | h
      · exact h
      · rw [List.getElem?_eq_none h] at hget; exact Option.noConfusion hget
    simp only [] at hn
    revert hn
    split
    · intro hn
      rw [List.getElem?_set_self hlen] at hn
      obtain rfl : _ = n := Option.some.inj hn
      have := spiralFold_aligned M g node ns
        ((jsRound (node.x / g) : ℚ) * g) ((jsRound (node.y / g) : ℚ) * g)
        (gridMul_round g _) (gridMul_round g _) spiralPairs
        (((jsRound (node.x / g) : ℚ) * g), ((jsRound (node.y / g) : ℚ) * g), false)
        (gridMul_round g _) (gridMul_round g _)
      exact this
    · intro hn
      rw [List.getElem?_set_self hlen] at hn
      obtain rfl : _ = n := Option.some.inj hn
      exact ⟨gridMul_round g _, gridMul_round g _⟩

theorem snapFold_aligned (M : NumModel) (g : ℚ) :
    ∀ (idxs : List Nat) (acc : List (EntityNode α)) (j : Nat),
      j ∈ idxs ∨ posAligned g acc j →
      posAligned g (idxs.foldl (snapOne M g) acc) j := by
  intro idxs
  induction idxs with
  | nil =>
    intro acc j h
    rcases h with h | h
    · simp at h
    · exact h
  | cons i rest ih =>
    intro acc j h
    rw [List.foldl_cons]
    apply ih
    by_cases hj : j = i
    · right; subst hj; exact snapOne_aligned_self M g acc j
    · rcases h with h | h
      · rcases List.mem_cons.mp h with h' | h'
        · exact absurd h' hj
        · exact Or.inl h'
      · right
        intro n hn
        rw [snapOne_getElem_ne M g acc i j hj] at hn
        exact h n hn

theorem length_eq_of_frames {ns ms : List (EntityNode α)}
    (h : ns.map frame = ms.map frame) : ns.length = ms.length := by
  have := congrArg List.length h
  simpa using this

theorem snapPass_aligned (M : NumModel) (g : ℚ) (ns : List (EntityNode α)) :
    ∀ n ∈ snapPass M g ns, gridMul g n.x ∧ gridMul g n.y := by
  intro n hn
  obtain ⟨j, hj, hget⟩ := List.getElem_of_mem hn
  have hlen : (snapPass M g ns).length = ns.length :=
    length_eq_of_frames (frames_snapPass M g ns)
  have hmem : j ∈ List.range ns.length := List.mem_range.mpr (hlen ▸ hj)
  have := snapFold_aligned M g (List.range ns.length) ns j (Or.inl hmem)
  exact this n (by rw [← hget]; exact List.getElem?_eq_getElem hj)

theorem simLoop_tail_snap (M : NumModel) (g c : ℚ) (es : List EntityEdge) :
    ∀ (k : Nat), 1 ≤ k → ∀ (ns : List (EntityNode α)) (t : ℚ),
      ∃ (ms : List (EntityNode α)) (t' : ℚ),
        simLoop M g c es k (ns, t) = (snapPass M g ms, t') := by
  intro k
  induction k with
  | zero => intro h; omega
  | succ k ih =>
    intro _ ns t
    by_cases hk : 1 ≤ k
    · obtain ⟨ms, t', h⟩ := ih hk (iterOnce M g t es ns) (t * c)
      exact ⟨ms, t', by rw [simLoop]; exact h⟩
    · have hz : k = 0 := by omega
      subst hz
      exact ⟨es.foldl (attractOne M g t) (repulsePass M g t ns), t * c, rfl⟩

theorem minQ_map_sub (c : ℚ) : ∀ (l : List ℚ), l ≠ [] →
    minQ (l.map (· - c)) = minQ l - c := by
  intro l h
  cases l with
  | nil => exact absurd rfl h
  | cons x xs =>
    clear h
    simp only [List.map_cons, minQ]
    induction xs generalizing x with
    | nil => simp
    | cons y ys ih =>
      simp only [List.map_cons, List.foldl_cons]
      rw [min_sub_sub_right x y c]
      exact ih (min x y)

theorem minQ_map_ne_nil {ns : List (EntityNode α)} (h : ns ≠ []) :
    ns.map (·.x) ≠ [] ∧ ns.map (·.y) ≠ [] := by
  cases ns with
  | nil => exact absurd rfl h
  | cons n rest => exact ⟨by simp, by simp⟩

theorem centerNodes_map_x (p : ℚ) (ns : List (EntityNode α)) :
    (centerNodes p ns).map (·.x)
      = (ns.map (·.x)).map (· - (minQ (ns.map (·.x)) - p)) := by
  unfold centerNodes
  rw [List.map_map, List.map_map]
  rfl

theorem centerNodes_map_y (p : ℚ) (ns : List (EntityNode α)) :
    (centerNodes p ns).map (·.y)
      = (ns.map (·.y)).map (· - (minQ (ns.map (·.y)) - p)) := by
  unfold centerNodes
  rw [List.map_map, List.map_map]
  rfl

theorem proj_of_frames {ns ms : List (EntityNode α)}
    (h : ns.map frame = ms.map frame) :
    ns.map (·.id) = ms.map (·.id) ∧ ns.map (·.width) = ms.map (·.width) ∧
      ns.map (·.height) = ms.map (·.height) ∧ ns.map (·.data) = ms.map (·.data) := by
  refine ⟨?_, ?_, ?_, ?_⟩
  · have := congrArg (List.map (·.1)) h
    simpa [frame, Function.comp] using this
  · have := congrArg (List.map (·.2.1)) h
    simpa [frame, Function.comp] using this
  · have := congrArg (List.map (·.2.2.1)) h
    simpa [frame, Function.comp] using this
  · have := congrArg (List.map (·.2.2.2)) h
    simpa [frame, Function.comp] using this

/-- **C8.** `calculateOrthogonalLayout` returns the node collection it was
given, same nodes in the same order (none created or destroyed): the length
and, pointwise, the `id`, `width`, `height` and `data` fields of the output
equal those of the input — only `x` and `y` are modified. -/
theorem claim8_frame_preservation (M : NumModel) {α : Type}
    (nodes : List (EntityNode α)) (edges : List EntityEdge)
    (options : LayoutOptions) :
    (calculateOrthogonalLayout M nodes edges options).length = nodes.length ∧
    (calculateOrthogonalLayout M nodes edges options).map (·.id) = nodes.map (·.id) ∧
    (calculateOrthogonalLayout M nodes edges options).map (·.width) = nodes.map (·.width) ∧
    (calculateOrthogonalLayout M nodes edges options).map (·.height) = nodes.map (·.height) ∧
    (calculateOrthogonalLayout M nodes edges options).map (·.data) = nodes.map (·.data) := by
  have h := frames_layout M nodes edges options
  obtain ⟨h1, h2, h3, h4⟩ := proj_of_frames h
  exact ⟨length_eq_of_frames h, h1, h2, h3, h4⟩

/-- **C2.** After layout, the minimum x over all nodes and the minimum y
over all nodes each equal exactly the configured padding, for every
non-empty node collection, any edges and any options. -/
theorem claim2_centering_min_eq_padding (M : NumModel) {α : Type}
    (nodes : List (EntityNode α)) (edges : List EntityEdge)
    (options : LayoutOptions) (hne : nodes ≠ []) :
    minQ ((calculateOrthogonalLayout M nodes edges options).map (·.x))
        = options.padding.getD 50 ∧
    minQ ((calculateOrthogonalLayout M nodes edges options).map (·.y))
        = options.padding.getD 50 := by
  unfold calculateOrthogonalLayout
  have hfr := frames_simLoop M (options.gridSize.getD 100)
    (options.coolingFactor.getD 0.95) edges (options.maxIterations.getD 100)
    (initializeNodes (options.gridSize.getD 100) (options.padding.getD 50) nodes)
    (options.temperature.getD 100)
  have hlen1 : (initializeNodes (options.gridSize.getD 100)
      (options.padding.getD 50) nodes).map frame = nodes.map frame := by
    unfold initializeNodes; exact frames_initFrom _ _ _ _ _
  have hne1 : (simLoop M (options.gridSize.getD 100)
      (options.coolingFactor.getD 0.95) edges (options.maxIterations.getD 100)
      (initializeNodes (options.gridSize.getD 100) (options.padding.getD 50) nodes,
        options.temperature.getD 100)).1 ≠ [] := by
    intro hemp
    have := length_eq_of_frames (hfr.trans hlen1)
    rw [hemp] at this
    cases nodes with
    | nil => exact hne rfl
    | cons a l => simp at this
  obtain ⟨hx, hy⟩ := minQ_map_ne_nil hne1
  constructor
  · rw [centerNodes_map_x, minQ_map_sub _ _ hx]; ring
  · rw [centerNodes_map_y, minQ_map_sub _ _ hy]; ring

set_option maxRecDepth 100000 in
/-- **C1, counterexample.** With the default gridSize 100 and padding 50
(and one iteration, so the snapping pass does run), a single node ends at
`(50, 50)`, and `50` is not an integer multiple of the grid size `100`:
the claimed invariant `x mod gridSize == 0` fails. -/
theorem claim1_counterexample :
    (calculateOrthogonalLayout canonModel [⟨"A", 0, 0, 0, 0, ()⟩] []
        { maxIterations := some 1 }).map (fun n => (n.x, n.y)) = [(50, 50)] ∧
      ¬ gridMul 100 50 := by
  constructor
  · norm_num [calculateOrthogonalLayout, initializeNodes, ceilSqrtNat, initFrom,
      simLoop, iterOnce, repulsePass, repulseOne, repulseStep, attractOne,
      snapPass, snapOne, jsRound, clampQ, centerNodes, minQ, List.range_succ]
  · rintro ⟨k, hk⟩
    have h2 : ((2 * k : ℤ) : ℚ) = 1 := by push_cast; linarith
    have h3 : (2 * k : ℤ) = 1 := by exact_mod_cast h2
    omega

/-- **C1, amended.** Provided at least one iteration runs and the grid
size is positive, every node's final x and y each differ from the
configured padding by an integer multiple of the grid size
(`x ≡ padding` and `y ≡ padding` modulo `gridSize`); the original
multiple-of-gridSize form holds only when the padding itself is a
multiple of the grid size. -/
theorem claim1_amended_grid_alignment (M : NumModel) {α : Type}
    (nodes : List (EntityNode α)) (edges : List EntityEdge)
    (options : LayoutOptions) (hg : 0 < options.gridSize.getD 100)
    (hit : 1 ≤ options.maxIterations.getD 100) :
    ∀ n ∈ calculateOrthogonalLayout M nodes edges options,
      (∃ k : ℤ, n.x = options.padding.getD 50 + (k : ℚ) * options.gridSize.getD 100) ∧
      (∃ k : ℤ, n.y = options.padding.getD 50 + (k : ℚ) * options.gridSize.getD 100) := by
  intro n hn
  simp only [calculateOrthogonalLayout] at hn
  obtain ⟨ms, t', hloop⟩ := simLoop_tail_snap M (options.gridSize.getD 100)
    (options.coolingFactor.getD 0.95) edges (options.maxIterations.getD 100) hit
    (initializeNodes (options.gridSize.getD 100) (options.padding.getD 50) nodes)
    (options.temperature.getD 100)
  rw [hloop] at hn
  unfold centerNodes at hn
  rw [List.mem_map] at hn
  obtain ⟨m, hm, rfl⟩ := hn
  have hsne : snapPass M (options.gridSize.getD 100) ms ≠ [] := by
    intro hemp; rw [hemp] at hm; exact absurd hm (List.not_mem_nil m)
  obtain ⟨hxne, hyne⟩ := minQ_map_ne_nil hsne
  obtain ⟨m0, hm0, hm0x⟩ := List.mem_map.mp (minQ_mem hxne)
  obtain ⟨m1, hm1, hm1y⟩ := List.mem_map.mp (minQ_mem hyne)
  obtain ⟨⟨kx, hkx⟩, ⟨ky, hky⟩⟩ := snapPass_aligned M _ ms m hm
  obtain ⟨⟨k0, hk0⟩, -⟩ := snapPass_aligned M _ ms m0 hm0
  obtain ⟨-, ⟨k1, hk1⟩⟩ := snapPass_aligned M _ ms m1 hm1
  constructor
  · exact ⟨kx - k0, by
      show m.x - (minQ _ - _) = _
      rw [← hm0x, hkx, hk0]; push_cast; ring⟩
  · exact ⟨ky - k1, by
      show m.y - (minQ _ - _) = _
      rw [← hm1y, hky, hk1]; push_cast; ring⟩

/-- Witness for C1 (amended): concrete instantiation at one node with
defaults and one iteration. -/
theorem claim1_amended_witness :
    (0 < (({ maxIterations := some 1 } : LayoutOptions)).gridSize.getD 100) ∧
    (1 ≤ (({ maxIterations := some 1 } : LayoutOptions)).maxIterations.getD 100) ∧
    ∀ n ∈ calculateOrthogonalLayout canonModel [⟨"A", 0, 0, 0, 0, ()⟩] []
        { maxIterations := some 1 },
      (∃ k : ℤ, n.x = ({ maxIterations := some 1 } : LayoutOptions).padding.getD 50 +
        (k : ℚ) * ({ maxIterations := some 1 } : LayoutOptions).gridSize.getD 100) ∧
      (∃ k : ℤ, n.y = ({ maxIterations := some 1 } : LayoutOptions).padding.getD 50 +
        (k : ℚ) * ({ maxIterations := some 1 } : LayoutOptions).gridSize.getD 100) :=
  ⟨by norm_num, by norm_num,
    claim1_amended_grid_alignment canonModel [⟨"A", 0, 0, 0, 0, ()⟩] []
      { maxIterations := some 1 } (by norm_num) (by norm_num)⟩

/-- Witness for C2: two nodes, no edges, zero iterations; the minima win
the configured padding 50. -/
theorem claim2_witness :
    minQ ((calculateOrthogonalLayout canonModel
        [⟨"A", 0, 0, 0, 0, ()⟩, ⟨"B", 0, 0, 0, 0, ()⟩] []
        { maxIterations := some 0 }).map (·.x)) = 50 ∧
    minQ ((calculateOrthogonalLayout canonModel
        [⟨"A", 0, 0, 0, 0, ()⟩, ⟨"B", 0, 0, 0, 0, ()⟩] []
        { maxIterations := some 0 }).map (·.y)) = 50 :=
  claim2_centering_min_eq_padding canonModel
    [⟨"A", 0, 0, 0, 0, ()⟩, ⟨"B", 0, 0, 0, 0, ()⟩] []
    { maxIterations := some 0 } (by decide)

/-- **C4.** Determinism: two invocations on the same inputs (no aliasing —
in this embedding, the same immutable values) produce identical outputs;
the algorithm uses no randomness and the spiral search order is fixed. -/
theorem claim4_determinism (M : NumModel) {α : Type}
    (nodes : List (EntityNode α)) (edges : List EntityEdge)
    (options : LayoutOptions) (r1 r2 : List (EntityNode α))
    (h1 : r1 = calculateOrthogonalLayout M nodes edges options)
    (h2 : r2 = calculateOrthogonalLayout M nodes edges options) : r1 = r2 :=
  h1.trans h2.symm

/-- Witness for C4: the empty layout, twice. -/
theorem claim4_witness : ([] : List (EntityNode Unit)) = [] := by
  have h : calculateOrthogonalLayout canonModel ([] : List (EntityNode Unit)) []
      {} = [] := by
    simp only [calculateOrthogonalLayout, Option.getD_none]
    have h0 := frames_simLoop canonModel 100 0.95 [] 100
      ([] : List (EntityNode Unit)) 100
    have h1 : (simLoop canonModel 100 0.95 [] 100
        (initializeNodes 100 50 ([] : List (EntityNode Unit)), 100)).1 = [] := by
      have h2 : initializeNodes 100 50 ([] : List (EntityNode Unit)) = [] := rfl
      rw [h2]
      exact List.map_eq_nil_iff.mp h0
    rw [h1]
    rfl
  exact claim4_determinism canonModel [] [] {} [] [] h.symm h.symm

theorem initFrom_congr (g p : ℚ) (w : Nat) :
    ∀ (i : Nat) (ns ms : List (EntityNode α)), ns.map frame = ms.map frame →
      initFrom g p w i ns = initFrom g p w i ms := by
  intro i ns
  induction ns generalizing i with
  | nil =>
    intro ms h
    cases ms with
    | nil => rfl
    | cons m rest => simp at h
  | cons n rest ih =>
    intro ms h
    cases ms with
    | nil => simp at h
    | cons m rest' =>
      simp only [List.map_cons, List.cons.injEq] at h
      obtain ⟨hf, ht⟩ := h
      cases n; cases m
      simp only [frame, Prod.mk.injEq] at hf
      obtain ⟨e1, e2, e3, e4⟩ := hf
      subst e1; subst e2; subst e3; subst e4
      simp only [initFrom, List.cons.injEq]
      exact ⟨by trivial, ih (i + 1) rest' ht⟩

theorem initializeNodes_congr (g p : ℚ) {ns ms : List (EntityNode α)}
    (h : ns.map frame = ms.map frame) :
    initializeNodes g p ns = initializeNodes g p ms := by
  unfold initializeNodes
  rw [length_eq_of_frames h]
  exact initFrom_congr g p _ 0 ns ms h

/-- **C10.** The output is independent of the x/y coordinates the input
nodes carry on entry: two inputs equal except for initial positions (same
ids, widths, heights, payloads, same order) produce identical outputs,
because the Initializer overwrites every position before any phase reads
it. -/
theorem claim10_initial_position_independence (M : NumModel) {α : Type}
    (n1 n2 : List (EntityNode α)) (edges : List EntityEdge)
    (options : LayoutOptions) (h : n1.map frame = n2.map frame) :
    calculateOrthogonalLayout M n1 edges options
      = calculateOrthogonalLayout M n2 edges options := by
  simp only [calculateOrthogonalLayout]
  rw [initializeNodes_congr _ _ h]

/-- Witness for C10: the same node once at position `(7, -3)` and once at
`(0, 0)`. -/
theorem claim10_witness :
    calculateOrthogonalLayout canonModel [⟨"A", 7, -3, 0, 0, ()⟩] [] {}
      = calculateOrthogonalLayout canonModel [⟨"A", 0, 0, 0, 0, ()⟩] [] {} :=
  claim10_initial_position_independence canonModel
    [⟨"A", 7, -3, 0, 0, ()⟩] [⟨"A", 0, 0, 0, 0, ()⟩] [] {} rfl

theorem find?_id_eq_none {ns : List (EntityNode α)} {s : String}
    (h : s ∉ ids ns) : ns.find? (fun n => n.id == s) = none := by
  rw [List.find?_eq_none]
  intro x hx hbeq
  exact h (List.mem_map.mpr ⟨x, hx, beq_iff_eq.mp hbeq⟩)

theorem attractOne_skip (M : NumModel) (g t : ℚ) (ns : List (EntityNode α))
    (e : EntityEdge) (h : e.source ∉ ids ns ∨ e.target ∉ ids ns) :
    attractOne M g t ns e = ns := by
  rcases h with h | h
  · unfold attractOne
    rw [find?_id_eq_none h]
  · unfold attractOne
    rw [find?_id_eq_none h]
    cases ns.find? (fun n => n.id == e.source) <;> rfl

theorem ids_attractOne (M : NumModel) (g t : ℚ) (ns : List (EntityNode α))
    (e : EntityEdge) : ids (attractOne M g t ns e) = ids ns :=
  ids_eq_of_frames (frames_attractOne M g t ns e)

theorem attract_fold_skip (M : NumModel) (g t : ℚ) (e : EntityEdge) :
    ∀ (el1 el2 : List EntityEdge) (ns : List (EntityNode α)),
      e.source ∉ ids ns ∨ e.target ∉ ids ns →
      (el1 ++ e :: el2).foldl (attractOne M g t) ns
        = (el1 ++ el2).foldl (attractOne M g t) ns := by
  intro el1
  induction el1 with
  | nil =>
    intro el2 ns h
    rw [List.nil_append, List.nil_append, List.foldl_cons, attractOne_skip M g t ns e h]
  | cons a el1 ih =>
    intro el2 ns h
    rw [List.cons_append, List.cons_append, List.foldl_cons, List.foldl_cons]
    exact ih el2 (attractOne M g t ns a)
      (by rw [ids_attractOne]; exact h)

theorem ids_repulsePass (M : NumModel) (g t : ℚ) (ns : List (EntityNode α)) :
    ids (repulsePass M g t ns) = ids ns :=
  ids_eq_of_frames (frames_repulsePass M g t ns)

theorem iterOnce_skip (M : NumModel) (g t : ℚ) (e : EntityEdge)
    (el1 el2 : List EntityEdge) (ns : List (EntityNode α))
    (h : e.source ∉ ids ns ∨ e.target ∉ ids ns) :
    iterOnce M g t (el1 ++ e :: el2) ns = iterOnce M g t (el1 ++ el2) ns := by
  unfold iterOnce
  rw [attract_fold_skip M g t e el1 el2 _ (by rw [ids_repulsePass]; exact h)]

theorem ids_iterOnce (M : NumModel) (g t : ℚ) (es : List EntityEdge)
    (ns : List (EntityNode α)) : ids (iterOnce M g t es ns) = ids ns :=
  ids_eq_of_frames (frames_iterOnce M g t es ns)

theorem simLoop_skip (M : NumModel) (g c : ℚ) (e : EntityEdge)
    (el1 el2 : List EntityEdge) :
    ∀ (k : Nat) (ns : List (EntityNode α)) (t : ℚ),
      e.source ∉ ids ns ∨ e.target ∉ ids ns →
      simLoop M g c (el1 ++ e :: el2) k (ns, t)
        = simLoop M g c (el1 ++ el2) k (ns, t) := by
  intro k
  induction k with
  | zero => intro ns t _; rfl
  | succ k ih =>
    intro ns t h
    rw [simLoop, simLoop, iterOnce_skip M g t e el1 el2 ns h]
    exact ih (iterOnce M g t (el1 ++ el2) ns) (t * c)
      (by rw [ids_iterOnce]; exact h)

/-- **C3.** Edge tolerance: an edge whose source or target identifier
matches no node id contributes nothing — the layout is exactly the one
computed with that edge removed (and no failure occurs). -/
theorem claim3_edge_tolerance (M : NumModel) {α : Type}
    (nodes : List (EntityNode α)) (el1 el2 : List EntityEdge)
    (e : EntityEdge) (options : LayoutOptions)
    (h : e.source ∉ ids nodes ∨ e.target ∉ ids nodes) :
    calculateOrthogonalLayout M nodes (el1 ++ e :: el2) options
      = calculateOrthogonalLayout M nodes (el1 ++ el2) options := by
  simp only [calculateOrthogonalLayout]
  rw [simLoop_skip M _ _ e el1 el2 _ _ _
    (by rw [ids_eq_of_frames (show (initializeNodes (options.gridSize.getD 100)
      (options.padding.getD 50) nodes).map frame = nodes.map frame from
        frames_initFrom _ _ _ _ _)]; exact h)]

/-- Witness for C3: an edge whose target `"X"` names no node. -/
theorem claim3_witness :
    calculateOrthogonalLayout canonModel [⟨"A", 0, 0, 0, 0, ()⟩]
        ([] ++ ⟨"A", "X"⟩ :: []) {}
      = calculateOrthogonalLayout canonModel [⟨"A", 0, 0, 0, 0, ()⟩]
        ([] ++ []) {} :=
  claim3_edge_tolerance canonModel [⟨"A", 0, 0, 0, 0, ()⟩] [] []
    ⟨"A", "X"⟩ {} (Or.inr (by simp [ids]))

/-- **C7.** Coincident points produce no force: a repulsion pair at
Euclidean distance exactly zero leaves the force accumulator unchanged,
and an attraction edge whose endpoints coincide moves nothing — the
division-by-distance branch is guarded by `distance > 0`, so the layout
never divides by a zero distance and raises no error for coincident
nodes. -/
theorem claim7_zero_distance_no_force (M : NumModel) {α : Type}
    (g t : ℚ) (node otherNode : EntityNode α) (acc : ℚ × ℚ)
    (ns : List (EntityNode α)) (e : EntityEdge) (s tn : EntityNode α)
    (hs : ns.find? (fun n => n.id == e.source) = some s)
    (ht : ns.find? (fun n => n.id == e.target) = some tn)
    (hx : otherNode.x = node.x) (hy : otherNode.y = node.y)
    (hx2 : tn.x = s.x) (hy2 : tn.y = s.y) :
    repulseStep M g node acc otherNode = acc ∧ attractOne M g t ns e = ns := by
  have hM0 : M.sqrt 0 = 0 := by simpa using M.sqrt_sq 0
  constructor
  · unfold repulseStep
    split
    · rfl
    · have h0 : M.sqrt ((node.x - otherNode.x) * (node.x - otherNode.x)
          + (node.y - otherNode.y) * (node.y - otherNode.y)) = 0 := by
        rw [hx, hy]
        simpa using hM0
      dsimp only
      rw [h0]
      simp
  · unfold attractOne
    rw [hs, ht]
    have h0 : M.sqrt ((tn.x - s.x) * (tn.x - s.x)
        + (tn.y - s.y) * (tn.y - s.y)) = 0 := by
      rw [hx2, hy2]
      simpa using hM0
    dsimp only
    rw [h0]
    simp

/-- Witness for C7: two distinct nodes at the identical position `(1, 2)`
and an edge between them. -/
theorem claim7_witness :
    repulseStep canonModel 100 (⟨"A", 1, 2, 0, 0, ()⟩ : EntityNode Unit)
        (0, 0) ⟨"B", 1, 2, 0, 0, ()⟩ = (0, 0) ∧
    attractOne canonModel 100 100
        [(⟨"A", 1, 2, 0, 0, ()⟩ : EntityNode Unit), ⟨"B", 1, 2, 0, 0, ()⟩]
        ⟨"A", "B"⟩
      = [⟨"A", 1, 2, 0, 0, ()⟩, ⟨"B", 1, 2, 0, 0, ()⟩] :=
  claim7_zero_distance_no_force canonModel 100 100
    ⟨"A", 1, 2, 0, 0, ()⟩ ⟨"B", 1, 2, 0, 0, ()⟩ (0, 0)
    [⟨"A", 1, 2, 0, 0, ()⟩, ⟨"B", 1, 2, 0, 0, ()⟩] ⟨"A", "B"⟩
    ⟨"A", 1, 2, 0, 0, ()⟩ ⟨"B", 1, 2, 0, 0, ()⟩
    (by decide) (by decide) rfl rfl rfl rfl

theorem initFrom_map_x (g p : ℚ) (w : Nat) :
    ∀ (ns : List (EntityNode α)) (i : Nat),
      (initFrom g p w i ns).map (·.x)
        = (List.range ns.length).map
            (fun j => (((i + j) % w : Nat) : ℚ) * (g * 2 + p)) := by
  intro ns
  induction ns with
  | nil => intro i; rfl
  | cons n rest ih =>
    intro i
    simp only [initFrom, List.map_cons, List.length_cons,
      List.range_succ_eq_map, List.map_map]
    refine List.cons_eq_cons.mpr ⟨by norm_num, ?_⟩
    rw [ih (i + 1)]
    refine List.map_congr_left fun j hj => ?_
    have : i + 1 + j = i + (j + 1) := by omega
    simp [Function.comp, this]

theorem initFrom_map_y (g p : ℚ) (w : Nat) :
    ∀ (ns : List (EntityNode α)) (i : Nat),
      (initFrom g p w i ns).map (·.y)
        = (List.range ns.length).map
            (fun j => (((i + j) / w : Nat) : ℚ) * (g * 2 + p)) := by
  intro ns
  induction ns with
  | nil => intro i; rfl
  | cons n rest ih =>
    intro i
    simp only [initFrom, List.map_cons, List.length_cons,
      List.range_succ_eq_map, List.map_map]
    refine List.cons_eq_cons.mpr ⟨by norm_num, ?_⟩
    rw [ih (i + 1)]
    refine List.map_congr_left fun j hj => ?_
    have : i + 1 + j = i + (j + 1) := by omega
    simp [Function.comp, this]

theorem minQ_eq_zero {l : List ℚ} (h0 : (0 : ℚ) ∈ l)
    (hnn : ∀ x ∈ l, 0 ≤ x) : minQ l = 0 := by
  refine le_antisymm (minQ_le 0 h0) ?_
  exact hnn _ (minQ_mem (List.ne_nil_of_mem h0))

/-- **C5.** With `maxIterations = 0` the simulator and snapper never run:
the output is the Initializer's grid placement followed by centering —
with `columns = ceil(sqrt N)`, node `i` ends at
`((i mod columns) * (2*gridSize + padding) + padding,
  (i div columns) * (2*gridSize + padding) + padding)`. -/
theorem claim5_no_iteration_grid_placement (M : NumModel) {α : Type}
    (nodes : List (EntityNode α)) (edges : List EntityEdge)
    (options : LayoutOptions) (h0 : options.maxIterations = some 0)
    (hg : 0 ≤ options.gridSize.getD 100) (hp : 0 ≤ options.padding.getD 50)
    (hne : nodes ≠ []) :
    (calculateOrthogonalLayout M nodes edges options).map (·.x)
      = (List.range nodes.length).map
          (fun i => ((i % ceilSqrtNat nodes.length : Nat) : ℚ)
            * (2 * options.gridSize.getD 100 + options.padding.getD 50)
            + options.padding.getD 50) ∧
    (calculateOrthogonalLayout M nodes edges options).map (·.y)
      = (List.range nodes.length).map
          (fun i => ((i / ceilSqrtNat nodes.length : Nat) : ℚ)
            * (2 * options.gridSize.getD 100 + options.padding.getD 50)
            + options.padding.getD 50) := by
  have hlenpos : 0 < nodes.length := by
    cases nodes with
    | nil => exact absurd rfl hne
    | cons a l => simp
  have hinitx : (initializeNodes (options.gridSize.getD 100)
      (options.padding.getD 50) nodes).map (·.x)
        = (List.range nodes.length).map
            (fun j => ((j % ceilSqrtNat nodes.length : Nat) : ℚ)
              * (options.gridSize.getD 100 * 2 + options.padding.getD 50)) := by
    unfold initializeNodes
    rw [initFrom_map_x]
    exact List.map_congr_left fun j hj => by norm_num
  have hinity : (initializeNodes (options.gridSize.getD 100)
      (options.padding.getD 50) nodes).map (·.y)
        = (List.range nodes.length).map
            (fun j => ((j / ceilSqrtNat nodes.length : Nat) : ℚ)
              * (options.gridSize.getD 100 * 2 + options.padding.getD 50)) := by
    unfold initializeNodes
    rw [initFrom_map_y]
    exact List.map_congr_left fun j hj => by norm_num
  have hcnn : (0 : ℚ) ≤ options.gridSize.getD 100 * 2 + options.padding.getD 50 := by
    linarith
  have hminx : minQ ((initializeNodes (options.gridSize.getD 100)
      (options.padding.getD 50) nodes).map (·.x)) = 0 := by
    rw [hinitx]
    refine minQ_eq_zero ?_ ?_
    · refine List.mem_map.mpr ⟨0, List.mem_range.mpr hlenpos, ?_⟩
      simp
    · intro x hx
      obtain ⟨j, hj, rfl⟩ := List.mem_map.mp hx
      exact mul_nonneg (by positivity) hcnn
  have hminy : minQ ((initializeNodes (options.gridSize.getD 100)
      (options.padding.getD 50) nodes).map (·.y)) = 0 := by
    rw [hinity]
    refine minQ_eq_zero ?_ ?_
    · refine List.mem_map.mpr ⟨0, List.mem_range.mpr hlenpos, ?_⟩
      simp
    · intro x hx
      obtain ⟨j, hj, rfl⟩ := List.mem_map.mp hx
      exact mul_nonneg (by positivity) hcnn
  simp only [calculateOrthogonalLayout, h0, Option.getD_some, simLoop]
  constructor
  · rw [centerNodes_map_x, hminx, hinitx, List.map_map]
    refine List.map_congr_left fun j hj => ?_
    simp only [Function.comp]
    ring
  · rw [centerNodes_map_y, hminy, hinity, List.map_map]
    refine List.map_congr_left fun j hj => ?_
    simp only [Function.comp]
    ring

/-- Witness for C5: five nodes (a 3-column grid), zero iterations. -/
theorem claim5_witness :
    ((calculateOrthogonalLayout canonModel
        [(⟨"A", 0, 0, 0, 0, ()⟩ : EntityNode Unit), ⟨"B", 0, 0, 0, 0, ()⟩,
          ⟨"C", 0, 0, 0, 0, ()⟩, ⟨"D", 0, 0, 0, 0, ()⟩, ⟨"E", 0, 0, 0, 0, ()⟩]
        [] { maxIterations := some 0 }).map (·.x)
      = (List.range 5).map (fun i => ((i % 3 : Nat) : ℚ) * 250 + 50)) ∧
    ((calculateOrthogonalLayout canonModel
        [(⟨"A", 0, 0, 0, 0, ()⟩ : EntityNode Unit), ⟨"B", 0, 0, 0, 0, ()⟩,
          ⟨"C", 0, 0, 0, 0, ()⟩, ⟨"D", 0, 0, 0, 0, ()⟩, ⟨"E", 0, 0, 0, 0, ()⟩]
        [] { maxIterations := some 0 }).map (·.y)
      = (List.range 5).map (fun i => ((i / 3 : Nat) : ℚ) * 250 + 50)) := by
  have h := claim5_no_iteration_grid_placement canonModel
    [(⟨"A", 0, 0, 0, 0, ()⟩ : EntityNode Unit), ⟨"B", 0, 0, 0, 0, ()⟩,
      ⟨"C", 0, 0, 0, 0, ()⟩, ⟨"D", 0, 0, 0, 0, ()⟩, ⟨"E", 0, 0, 0, 0, ()⟩]
    [] { maxIterations := some 0 } rfl (by norm_num) (by norm_num)
    (by decide)
  obtain ⟨h1, h2⟩ := h
  constructor
  · rw [h1]
    refine List.map_congr_left fun j hj => ?_
    norm_num [ceilSqrtNat]
  · rw [h2]
    refine List.map_congr_left fun j hj => ?_
    norm_num [ceilSqrtNat]

/-! ### C6: the snapping pass against the spec's description -/

/-- The candidate position of spiral step `ri = (r, i)` around a rounded
position. -/
def spiralCand (M : NumModel) (gridSize rX rY : ℚ) (ri : Nat × Nat) : ℚ × ℚ :=
  (rX + ((M.trig ri.1 ri.2).1 : ℚ) * gridSize,
   rY + ((M.trig ri.1 ri.2).2 : ℚ) * gridSize)

/-- The code's acceptance test for a spiral candidate: every other node
is at least `gridSize` away on at least one axis. -/
def spiralOk (M : NumModel) (gridSize : ℚ) (node : EntityNode α)
    (ns : List (EntityNode α)) (rX rY : ℚ) (ri : Nat × Nat) : Bool :=
  ns.all fun otherNode =>
    otherNode.id == node.id ||
      decide (gridSize ≤ |(spiralCand M gridSize rX rY ri).1 - otherNode.x|) ||
      decide (gridSize ≤ |(spiralCand M gridSize rX rY ri).2 - otherNode.y|)

/-- Conflict as the spec words it (§4.3): some *other* node lies within
`gridSize` on both axes of the tested position. -/
def specConflicts (gridSize : ℚ) (node : EntityNode α)
    (ns : List (EntityNode α)) (pos : ℚ × ℚ) : Bool :=
  ns.any fun otherNode =>
    !(otherNode.id == node.id) &&
      decide (|pos.1 - otherNode.x| < gridSize) &&
      decide (|pos.2 - otherNode.y| < gridSize)

/-- The Grid Snapper for one node, written after the spec's §4.3 prose:
round each axis to the nearest multiple of `gridSize`; if the rounded
position conflicts, take the first conflict-free candidate of the spiral
enumeration (radius 1 to 3, `r*8` steps each); if none exists keep the
(still-conflicting) rounded position. -/
def snapSpecOne (M : NumModel) (gridSize : ℚ)
    (ns : List (EntityNode α)) (i : Nat) : List (EntityNode α) :=
  match ns[i]? with
  | none => ns
  | some node =>
    let rounded : ℚ × ℚ := ((jsRound (node.x / gridSize) : ℚ) * gridSize,
      (jsRound (node.y / gridSize) : ℚ) * gridSize)
    if specConflicts gridSize node ns rounded then
      match (spiralPairs.map (spiralCand M gridSize rounded.1 rounded.2)).find?
          (fun c => !specConflicts gridSize node ns c) with
      | some c => ns.set i { node with x := c.1, y := c.2 }
      | none => ns.set i { node with x := rounded.1, y := rounded.2 }
    else ns.set i { node with x := rounded.1, y := rounded.2 }

/-- The whole snapping pass as the spec describes it. -/
def snapSpecPass (M : NumModel) (gridSize : ℚ) (ns : List (EntityNode α)) :
    List (EntityNode α) :=
  (List.range ns.length).foldl (snapSpecOne M gridSize) ns

theorem bool_or_not_not (a b c : Bool) : (a || !b || !c) = !(!a && b && c) := by
  cases a <;> cases b <;> cases c <;> rfl

theorem decide_le_eq_not_decide_lt (a b : ℚ) :
    decide (a ≤ b) = !decide (b < a) := by
  by_cases h : b < a
  · simp [h, not_le.mpr h]
  · simp [h, not_lt.mp h]

theorem spiralOk_eq_not_conflicts (M : NumModel) (gridSize : ℚ)
    (node : EntityNode α) (ns : List (EntityNode α)) (rX rY : ℚ)
    (ri : Nat × Nat) :
    spiralOk M gridSize node ns rX rY ri
      = !specConflicts gridSize node ns (spiralCand M gridSize rX rY ri) := by
  unfold spiralOk specConflicts
  induction ns with
  | nil => rfl
  | cons o rest ih =>
    rw [List.all_cons, List.any_cons, ih, decide_le_eq_not_decide_lt,
      decide_le_eq_not_decide_lt, bool_or_not_not, ← Bool.not_or]

theorem spiralFold_frozen (M : NumModel) (gridSize : ℚ)
    (node : EntityNode α) (ns : List (EntityNode α)) (rX rY : ℚ) :
    ∀ (L : List (Nat × Nat)) (x y : ℚ),
      L.foldl (spiralStep M gridSize node ns rX rY) (x, y, true) = (x, y, true) := by
  intro L
  induction L with
  | nil => intro x y; rfl
  | cons ri rest ih =>
    intro x y
    rw [List.foldl_cons]
    exact ih x y

theorem spiralFold_eq_find (M : NumModel) (gridSize : ℚ)
    (node : EntityNode α) (ns : List (EntityNode α)) (rX rY : ℚ) :
    ∀ (L : List (Nat × Nat)) (x y : ℚ),
      L.foldl (spiralStep M gridSize node ns rX rY) (x, y, false)
        = (match L.find? (spiralOk M gridSize node ns rX rY) with
           | some ri => ((spiralCand M gridSize rX rY ri).1,
               (spiralCand M gridSize rX rY ri).2, true)
           | none => (x, y, false)) := by
  have hstep : ∀ (ri : Nat × Nat) (x y : ℚ),
      spiralStep M gridSize node ns rX rY (x, y, false) ri
        = if spiralOk M gridSize node ns rX rY ri
            then ((spiralCand M gridSize rX rY ri).1,
                (spiralCand M gridSize rX rY ri).2, true)
            else (x, y, false) := by
    intro ri x y
    unfold spiralStep spiralOk spiralCand
    rfl
  intro L
  induction L with
  | nil => intro x y; rfl
  | cons ri rest ih =>
    intro x y
    rw [List.foldl_cons, hstep]
    by_cases hok : spiralOk M gridSize node ns rX rY ri = true
    · rw [if_pos hok, spiralFold_frozen, List.find?_cons_of_pos _ hok]
    · rw [if_neg (by simpa using hok), ih, List.find?_cons_of_neg _ hok]

theorem snapOne_unfold (M : NumModel) (gridSize : ℚ)
    (ns : List (EntityNode α)) (i : Nat) (node : EntityNode α)
    (hget : ns[i]? = some node) :
    snapOne M gridSize ns i =
      (if specConflicts gridSize node ns
          ((jsRound (node.x / gridSize) : ℚ) * gridSize,
           (jsRound (node.y / gridSize) : ℚ) * gridSize) then
        ns.set i { node with
          x := (spiralPairs.foldl
            (spiralStep M gridSize node ns
              ((jsRound (node.x / gridSize) : ℚ) * gridSize)
              ((jsRound (node.y / gridSize) : ℚ) * gridSize))
            ((jsRound (node.x / gridSize) : ℚ) * gridSize,
             (jsRound (node.y / gridSize) : ℚ) * gridSize, false)).1,
          y := (spiralPairs.foldl
            (spiralStep M gridSize node ns
              ((jsRound (node.x / gridSize) : ℚ) * gridSize)
              ((jsRound (node.y / gridSize) : ℚ) * gridSize))
            ((jsRound (node.x / gridSize) : ℚ) * gridSize,
             (jsRound (node.y / gridSize) : ℚ) * gridSize, false)).2.1 }
      else
        ns.set i { node with
          x := (jsRound (node.x / gridSize) : ℚ) * gridSize,
          y := (jsRound (node.y / gridSize) : ℚ) * gridSize }) := by
  unfold snapOne
  rw [hget]
  rfl

set_option maxRecDepth 4000 in
/-- **C6.** The snapping pass of the code coincides, node for node, with
the spec's §4.3 description: per-axis rounding to the nearest grid
multiple, the conflict test `|dx| < gridSize AND |dy| < gridSize` against
every other node's current position, the fixed spiral enumeration
(radius 1..3, `r*8` steps) taking the **first** conflict-free candidate,
and the fallback to the rounded position when no candidate is free. -/
theorem claim6_snap_refines_spec (M : NumModel) {α : Type} (gridSize : ℚ)
    (ns : List (EntityNode α)) :
    snapPass M gridSize ns = snapSpecPass M gridSize ns := by
  have hone : ∀ (ms : List (EntityNode α)) (i : Nat),
      snapOne M gridSize ms i = snapSpecOne M gridSize ms i := by
    intro ms i
    cases hget : ms[i]? with
    | none =>
      unfold snapOne snapSpecOne
      rw [hget]
    | some node =>
      rw [snapOne_unfold M gridSize ms i node hget]
      unfold snapSpecOne
      rw [hget]
      dsimp only
      by_cases hov : specConflicts gridSize node ms
          ((jsRound (node.x / gridSize) : ℚ) * gridSize,
           (jsRound (node.y / gridSize) : ℚ) * gridSize) = true
      · rw [if_pos hov, if_pos hov,
          spiralFold_eq_find M gridSize node ms _ _ spiralPairs _ _,
          List.find?_map]
        have hpred : ((fun c => !specConflicts gridSize node ms c) ∘
            spiralCand M gridSize
              ((jsRound (node.x / gridSize) : ℚ) * gridSize)
              ((jsRound (node.y / gridSize) : ℚ) * gridSize))
            = spiralOk M gridSize node ms
              ((jsRound (node.x / gridSize) : ℚ) * gridSize)
              ((jsRound (node.y / gridSize) : ℚ) * gridSize) := by
          funext ri
          rw [Function.comp]
          exact (spiralOk_eq_not_conflicts M gridSize node ms _ _ ri).symm
        rw [hpred]
        cases hfind : spiralPairs.find? (spiralOk M gridSize node ms
            ((jsRound (node.x / gridSize) : ℚ) * gridSize)
            ((jsRound (node.y / gridSize) : ℚ) * gridSize)) with
        | none => rfl
        | some ri => rfl
      · rw [if_neg (by simpa using hov), if_neg (by simpa using hov)]
  unfold snapPass snapSpecPass
  rw [show snapOne M gridSize = snapSpecOne M gridSize from
    funext fun ms => funext fun i => hone ms i]

/-! ### C9: the two-node convergence scenario -/

/-- The node labelled `"A"` of the two-node scenario. -/
def nodeA (x y : ℚ) : EntityNode Unit := ⟨"A", x, y, 0, 0, ()⟩

/-- The node labelled `"B"` of the two-node scenario. -/
def nodeB (x y : ℚ) : EntityNode Unit := ⟨"B", x, y, 0, 0, ()⟩

/-- The single edge `A → B`. -/
def edgeAB : EntityEdge := ⟨"A", "B"⟩

theorem clampQ_small {v m : ℚ} (h : |v| ≤ m) : clampQ v m = v := by
  unfold clampQ
  rw [min_eq_left (le_of_abs_le h), max_eq_left (neg_le_of_abs_le h)]

theorem clampQ_of_nonneg {v m : ℚ} (hv : 0 ≤ v) (hm : 0 ≤ m) :
    clampQ v m = min v m := by
  unfold clampQ
  exact max_eq_left (le_min (by linarith) (by linarith))

theorem jsRound_zero_of (v : ℚ) (h0 : -50 ≤ v) (h1 : v < 50) :
    jsRound (v / 100) = 0 := by
  unfold jsRound
  rw [Int.floor_eq_zero_iff]
  constructor
  · linarith
  · show v / 100 + 1 / 2 < 1
    linarith

theorem jsRound_two_of (v : ℚ) (h0 : 150 ≤ v) (h1 : v < 250) :
    jsRound (v / 100) = 2 := by
  unfold jsRound
  rw [Int.floor_eq_iff]
  constructor
  · push_cast
    linarith
  · push_cast
    linarith

theorem repulseStep_same (M : NumModel) (g : ℚ) (node otherNode : EntityNode Unit)
    (acc : ℚ × ℚ) (h : node.id = otherNode.id) :
    repulseStep M g node acc otherNode = acc := by
  unfold repulseStep
  rw [if_pos h]

theorem repulseStep_axis (M : NumModel) (node otherNode : EntityNode Unit)
    (acc : ℚ × ℚ) (hid : ¬ node.id = otherNode.id)
    (hy : node.y = otherNode.y)
    (hfar : 200 ≤ |node.x - otherNode.x|) :
    repulseStep M 100 node acc otherNode
      = (acc.1 + (node.x - otherNode.x) / |node.x - otherNode.x|
          * (100 * 2 / ((node.x - otherNode.x) * (node.x - otherNode.x))),
         acc.2) := by
  have habs : M.sqrt ((node.x - otherNode.x) * (node.x - otherNode.x)
      + (node.y - otherNode.y) * (node.y - otherNode.y))
        = |node.x - otherNode.x| := by
    rw [hy, show (node.x - otherNode.x) * (node.x - otherNode.x)
        + (otherNode.y - otherNode.y) * (otherNode.y - otherNode.y)
        = (node.x - otherNode.x) * (node.x - otherNode.x) by ring]
    exact M.sqrt_sq _
  have hpos : 0 < |node.x - otherNode.x| := by linarith
  have hsq : (0 : ℚ) < (node.x - otherNode.x) * (node.x - otherNode.x) := by
    rw [← abs_mul_abs_self]
    exact mul_pos hpos hpos
  have hsq' : (40000 : ℚ) ≤ (node.x - otherNode.x) * (node.x - otherNode.x) := by
    rw [← abs_mul_abs_self]
    nlinarith
  unfold repulseStep
  rw [if_neg hid]
  dsimp only
  rw [habs, if_pos hpos]
  rw [if_neg (show ¬ |node.x - otherNode.x| < 100 * 1.5 by norm_num; linarith)]
  rw [min_eq_left (show (100 : ℚ) * 2 / (|node.x - otherNode.x|
      * |node.x - otherNode.x|) ≤ 100 by
    rw [abs_mul_abs_self, div_le_iff hsq]
    nlinarith)]
  rw [abs_mul_abs_self, hy]
  norm_num

theorem repulseOne_eval (M : NumModel) (g t : ℚ) (ns : List (EntityNode Unit))
    (i : Nat) (node : EntityNode Unit) (hget : ns[i]? = some node) :
    repulseOne M g t ns i = ns.set i
      { node with
        x := node.x + clampQ ((ns.foldl (repulseStep M g node) (0, 0)).1 * t)
          (g * 0.5),
        y := node.y + clampQ ((ns.foldl (repulseStep M g node) (0, 0)).2 * t)
          (g * 0.5) } := by
  unfold repulseOne
  rw [hget]

theorem repulsePass_axis (M : NumModel) (t b : ℚ) (ht0 : 0 < t)
    (ht1 : t ≤ 100) (hb0 : 200 ≤ b) (hb1 : b ≤ 250) :
    ∃ aa bb : ℚ,
      repulsePass M 100 t [nodeA 0 0, nodeB b 0] = [nodeA aa 0, nodeB bb 0]
        ∧ -(1/2) ≤ aa ∧ aa < 0 ∧ b < bb ∧ bb ≤ b + 1/2 ∧ bb - b ≤ t / 200 := by
  have hbpos : (0 : ℚ) < b := by linarith
  have hbsq : (40000 : ℚ) ≤ b * b := by nlinarith
  -- the force accumulated on A
  have hfA : List.foldl (repulseStep M 100 (nodeA 0 0)) (0, 0)
      [nodeA 0 0, nodeB b 0] = (-(100 * 2 / (b * b)), 0) := by
    rw [List.foldl_cons, List.foldl_cons, List.foldl_nil,
      repulseStep_same M 100 _ _ _ rfl,
      repulseStep_axis M (nodeA 0 0) (nodeB b 0) (0, 0) (by simp [nodeA, nodeB])
        rfl (by
          show (200 : ℚ) ≤ |(0 : ℚ) - b|
          rw [zero_sub, abs_neg, abs_of_pos hbpos]
          linarith)]
    show ((0 : ℚ) + ((0 : ℚ) - b) / |(0 : ℚ) - b| * (100 * 2 / (((0:ℚ) - b) * ((0:ℚ) - b))),
        (0 : ℚ)) = (-(100 * 2 / (b * b)), 0)
    rw [zero_sub, abs_neg, abs_of_pos hbpos]
    rw [show (-b) * (-b) = b * b by ring]
    rw [neg_div, div_self (ne_of_gt hbpos)]
    ring_nf
  -- state after updating A
  set aa : ℚ := -(100 * 2 / (b * b)) * t with haa_def
  have haa_nonpos : aa ≤ 0 := by
    rw [haa_def]
    have : (0 : ℚ) < 100 * 2 / (b * b) * t :=
      mul_pos (div_pos (by norm_num) (by nlinarith)) ht0
    linarith
  have haa_abs : |aa| ≤ 1/2 := by
    rw [abs_of_nonpos haa_nonpos, haa_def,
      show -(-(100 * 2 / (b * b)) * t) = 100 * 2 / (b * b) * t by ring,
      div_mul_eq_mul_div, div_le_iff (by nlinarith)]
    nlinarith
  have haa0 : -(1/2) ≤ aa := by
    rcases abs_le.mp haa_abs with ⟨h, _⟩
    linarith
  have haa1 : aa < 0 := by
    rw [haa_def]
    have : (0 : ℚ) < 100 * 2 / (b * b) * t :=
      mul_pos (div_pos (by norm_num) (by nlinarith)) ht0
    linarith
  have hstep0 : repulseOne M 100 t [nodeA 0 0, nodeB b 0] 0
      = [nodeA aa 0, nodeB b 0] := by
    rw [repulseOne_eval M 100 t _ 0 (nodeA 0 0) rfl, hfA]
    show [(⟨"A", 0 + clampQ (-(100 * 2 / (b * b)) * t) (100 * 0.5),
        0 + clampQ (0 * t) (100 * 0.5), 0, 0, ()⟩ : EntityNode Unit),
      nodeB b 0] = [nodeA aa 0, nodeB b 0]
    rw [zero_mul, show clampQ 0 (100 * 0.5) = 0 by norm_num [clampQ]]
    rw [clampQ_small (le_trans haa_abs (by norm_num))]
    rw [haa_def]
    norm_num [nodeA]
  -- the force accumulated on B
  have hd1 : (200 : ℚ) ≤ b - aa := by linarith
  have hd1sq : (40000 : ℚ) ≤ (b - aa) * (b - aa) := by nlinarith
  have hfB : List.foldl (repulseStep M 100 (nodeB b 0)) (0, 0)
      [nodeA aa 0, nodeB b 0] = (100 * 2 / ((b - aa) * (b - aa)), 0) := by
    rw [List.foldl_cons, List.foldl_cons, List.foldl_nil,
      repulseStep_axis M (nodeB b 0) (nodeA aa 0) (0, 0) (by simp [nodeA, nodeB])
        rfl (by
          show (200 : ℚ) ≤ |b - aa|
          rw [abs_of_pos (by linarith)]
          linarith),
      repulseStep_same M 100 _ _ _ rfl]
    show ((0 : ℚ) + (b - aa) / |b - aa| * (100 * 2 / ((b - aa) * (b - aa))),
        (0 : ℚ)) = (100 * 2 / ((b - aa) * (b - aa)), 0)
    rw [abs_of_pos (show (0:ℚ) < b - aa by linarith), div_self (by linarith)]
    ring_nf
  set bb : ℚ := b + 100 * 2 / ((b - aa) * (b - aa)) * t with hbb_def
  have hmove_pos : (0 : ℚ) < 100 * 2 / ((b - aa) * (b - aa)) * t :=
    mul_pos (div_pos (by norm_num) (by nlinarith)) ht0
  have hmove_small : 100 * 2 / ((b - aa) * (b - aa)) * t ≤ t / 200 := by
    rw [div_mul_eq_mul_div, div_le_div_iff (by nlinarith) (by norm_num)]
    nlinarith
  have hstep1 : repulseOne M 100 t [nodeA aa 0, nodeB b 0] 1
      = [nodeA aa 0, nodeB bb 0] := by
    rw [repulseOne_eval M 100 t _ 1 (nodeB b 0) rfl, hfB]
    show [nodeA aa 0,
      (⟨"B", b + clampQ (100 * 2 / ((b - aa) * (b - aa)) * t) (100 * 0.5),
        0 + clampQ (0 * t) (100 * 0.5), 0, 0, ()⟩ : EntityNode Unit)]
      = [nodeA aa 0, nodeB bb 0]
    rw [zero_mul, show clampQ 0 (100 * 0.5) = 0 by norm_num [clampQ]]
    rw [clampQ_small (by
      rw [abs_of_pos hmove_pos]
      refine le_trans hmove_small (le_trans (show t / 200 ≤ 1/2 by linarith) ?_)
      norm_num)]
    rw [hbb_def]
    norm_num [nodeB]
  refine ⟨aa, bb, ?_, haa0, haa1, ?_, ?_, ?_⟩
  · show (List.range ([nodeA 0 0, nodeB b 0] : List (EntityNode Unit)).length).foldl
      (repulseOne M 100 t) [nodeA 0 0, nodeB b 0] = [nodeA aa 0, nodeB bb 0]
    rw [show (List.range ([nodeA 0 0, nodeB b 0] : List (EntityNode Unit)).length)
        = [0, 1] from rfl]
    rw [List.foldl_cons, List.foldl_cons, List.foldl_nil, hstep0, hstep1]
  · rw [hbb_def]; linarith
  · rw [hbb_def]; linarith [hmove_small, ht1]
  · rw [hbb_def]; linarith

theorem attractOne_axis (M : NumModel) (ax bx t : ℚ) (hlt : ax < bx)
    (hcap : (bx - ax) / (100 * 2) ≤ 100 * 0.5) :
    attractOne M 100 t [nodeA ax 0, nodeB bx 0] edgeAB
      = [nodeA (ax + clampQ ((bx - ax) / (100 * 2) * t) (100 * 0.5)) 0,
         nodeB (bx - clampQ ((bx - ax) / (100 * 2) * t) (100 * 0.5)) 0] := by
  have hdpos : (0 : ℚ) < bx - ax := by linarith
  have hsq : M.sqrt ((bx - ax) * (bx - ax) + ((0:ℚ) - 0) * ((0:ℚ) - 0))
      = bx - ax := by
    rw [show (bx - ax) * (bx - ax) + ((0:ℚ) - 0) * ((0:ℚ) - 0)
        = (bx - ax) * (bx - ax) by ring, M.sqrt_sq, abs_of_pos hdpos]
  unfold attractOne
  rw [show ([nodeA ax 0, nodeB bx 0] : List (EntityNode Unit)).find?
      (fun n => n.id == edgeAB.source) = some (nodeA ax 0) from rfl]
  rw [show ([nodeA ax 0, nodeB bx 0] : List (EntityNode Unit)).find?
      (fun n => n.id == edgeAB.target) = some (nodeB bx 0) from rfl]
  dsimp only
  show (if 0 < M.sqrt (((nodeB bx 0).x - (nodeA ax 0).x) * ((nodeB bx 0).x - (nodeA ax 0).x)
      + ((nodeB bx 0).y - (nodeA ax 0).y) * ((nodeB bx 0).y - (nodeA ax 0).y)) then _ else _) = _
  rw [show (nodeB bx 0).x = bx from rfl, show (nodeA ax 0).x = ax from rfl,
    show (nodeB bx 0).y = (0:ℚ) from rfl, show (nodeA ax 0).y = (0:ℚ) from rfl]
  rw [hsq, if_pos hdpos, min_eq_left hcap]
  rw [div_self (ne_of_gt hdpos), one_mul]
  rw [show ((0:ℚ) - 0) / (bx - ax) * ((bx - ax) / (100 * 2)) = 0 by ring]
  rw [zero_mul, show clampQ 0 (100 * 0.5) = 0 by norm_num [clampQ]]
  show setFirst (fun n => n.id == edgeAB.target) _
      (setFirst (fun n => n.id == edgeAB.source) _ [nodeA ax 0, nodeB bx 0]) = _
  rw [show setFirst (fun n => n.id == edgeAB.source)
      (fun n => { n with
        x := n.x + clampQ ((bx - ax) / (100 * 2) * t) (100 * 0.5),
        y := n.y + 0 }) [nodeA ax 0, nodeB bx 0]
      = [nodeA (ax + clampQ ((bx - ax) / (100 * 2) * t) (100 * 0.5)) 0,
         nodeB bx 0] by
    simp [setFirst, nodeA, nodeB, edgeAB]]
  simp [setFirst, nodeA, nodeB, edgeAB]

theorem snapPass_axis (M : NumModel) (ax bx : ℚ) (ha0 : -50 ≤ ax)
    (ha1 : ax < 50) (hb0 : 150 ≤ bx) (hb1 : bx < 250) :
    snapPass M 100 [nodeA ax 0, nodeB bx 0] = [nodeA 0 0, nodeB 200 0] := by
  have hbpos : (0 : ℚ) < bx := by linarith
  have hjx : jsRound (ax / 100) = 0 := jsRound_zero_of ax ha0 ha1
  have hjy : jsRound ((0 : ℚ) / 100) = 0 :=
    jsRound_zero_of 0 (by norm_num) (by norm_num)
  have hjb : jsRound (bx / 100) = 2 := jsRound_two_of bx hb0 hb1
  have hs0 : snapOne M 100 [nodeA ax 0, nodeB bx 0] 0
      = [nodeA 0 0, nodeB bx 0] := by
    rw [snapOne_unfold M 100 _ 0 (nodeA ax 0) rfl]
    rw [show (nodeA ax 0).x = ax from rfl, show (nodeA ax 0).y = (0 : ℚ) from rfl]
    rw [hjx, hjy]
    rw [show (((0 : ℤ) : ℚ)) * 100 = 0 by norm_num]
    have h1 : ¬ (|(0 : ℚ) - bx| < 100) := by
      rw [zero_sub, abs_neg, abs_of_pos hbpos]
      linarith
    rw [if_neg (by simp [specConflicts, nodeA, nodeB, h1, abs_of_pos hbpos]; linarith)]
    simp [List.set, nodeA]
  have hs1 : snapOne M 100 [nodeA 0 0, nodeB bx 0] 1
      = [nodeA 0 0, nodeB 200 0] := by
    rw [snapOne_unfold M 100 _ 1 (nodeB bx 0) rfl]
    rw [show (nodeB bx 0).x = bx from rfl, show (nodeB bx 0).y = (0 : ℚ) from rfl]
    rw [hjb, hjy]
    rw [show (((2 : ℤ) : ℚ)) * 100 = 200 by norm_num,
      show (((0 : ℤ) : ℚ)) * 100 = 0 by norm_num]
    have h2 : ¬ (|(200 : ℚ) - 0| < 100) := by norm_num
    rw [if_neg (by simp [specConflicts, nodeA, nodeB, h2]; norm_num)]
    simp [List.set, nodeB]
  show (List.range ([nodeA ax 0, nodeB bx 0] : List (EntityNode Unit)).length).foldl
      (snapOne M 100) [nodeA ax 0, nodeB bx 0] = [nodeA 0 0, nodeB 200 0]
  rw [show (List.range ([nodeA ax 0, nodeB bx 0] : List (EntityNode Unit)).length)
      = [0, 1] from rfl]
  rw [List.foldl_cons, List.foldl_cons, List.foldl_nil, hs0, hs1]

theorem axisStep (M : NumModel) (t b : ℚ) (ht0 : 0 < t) (ht1 : t ≤ 100)
    (hb0 : 200 ≤ b) (hb1 : b ≤ 250) :
    iterOnce M 100 t [edgeAB] [nodeA 0 0, nodeB b 0]
      = [nodeA 0 0, nodeB 200 0] := by
  obtain ⟨aa, bb, hrep, haa0, haa1, hbb0, hbb1, hbbt⟩ :=
    repulsePass_axis M t b ht0 ht1 hb0 hb1
  have hD0 : (200 : ℚ) < bb - aa := by linarith
  have hD1 : bb - aa ≤ 251 := by linarith
  have hcap : (bb - aa) / (100 * 2) ≤ 100 * 0.5 := by
    rw [div_le_iff (by norm_num : (0 : ℚ) < 100 * 2)]
    nlinarith
  unfold iterOnce
  rw [hrep, List.foldl_cons, List.foldl_nil,
    attractOne_axis M aa bb t (by linarith) hcap]
  set mx := clampQ ((bb - aa) / (100 * 2) * t) (100 * 0.5) with hmx_def
  have hv_pos : 0 < (bb - aa) / (100 * 2) * t :=
    mul_pos (div_pos (by linarith) (by norm_num)) ht0
  have hmx_eq : mx = min ((bb - aa) / (100 * 2) * t) (100 * 0.5) :=
    clampQ_of_nonneg (le_of_lt hv_pos) (by norm_num)
  have hmx_pos : 0 < mx := by
    rw [hmx_eq]
    exact lt_min hv_pos (by norm_num)
  have hmx_le : mx ≤ 50 := by
    rw [hmx_eq]
    refine le_trans (min_le_right _ _) (by norm_num)
  have hveps : bb - b < mx := by
    rw [hmx_eq]
    rcases le_or_lt ((bb - aa) / (100 * 2) * t) (100 * 0.5) with h | h
    · rw [min_eq_left h]
      have h1 : t / 200 < t := by linarith
      have h2 : t < (bb - aa) / (100 * 2) * t := by
        have h3 : (1 : ℚ) < (bb - aa) / (100 * 2) := by
          rw [lt_div_iff (by norm_num : (0 : ℚ) < 100 * 2)]
          linarith
        nlinarith
      linarith
    · rw [min_eq_right (le_of_lt h)]
      have h4 : t / 200 ≤ 1 / 2 := by linarith
      norm_num
      linarith
  exact snapPass_axis M (aa + mx) (bb - mx) (by linarith) (by linarith)
    (by linarith) (by linarith)

theorem axisLoop (M : NumModel) : ∀ (k : Nat) (t : ℚ), 0 < t → t ≤ 100 →
    (simLoop M 100 0.95 [edgeAB] k ([nodeA 0 0, nodeB 200 0], t)).1
      = [nodeA 0 0, nodeB 200 0] := by
  intro k
  induction k with
  | zero => intro t _ _; rfl
  | succ k ih =>
    intro t ht0 ht1
    show (simLoop M 100 0.95 [edgeAB] k
      (iterOnce M 100 t [edgeAB] [nodeA 0 0, nodeB 200 0], t * 0.95)).1 = _
    rw [axisStep M t 200 ht0 ht1 (le_refl 200) (by norm_num)]
    refine ih (t * 0.95) (by nlinarith) (by nlinarith)

/-- **C9.** For `nodes = [A, B]`, `edges = [A → B]`, `gridSize = 100` and
otherwise default options, for every `maxIterations ≥ 20` the final
squared Euclidean distance between A and B is strictly positive (the
nodes do not coincide) and strictly below the square of their initial
grid-placement distance `2*gridSize + padding = 250` (the final layout
is `A = (50,50)`, `B = (250,50)`, distance 200). -/
theorem claim9_two_nodes_converge (M : NumModel) (mi : Nat) (hmi : 20 ≤ mi) :
    ∃ a b : EntityNode Unit,
      calculateOrthogonalLayout M [nodeA 0 0, nodeB 0 0] [edgeAB]
          { gridSize := some 100, maxIterations := some mi } = [a, b] ∧
        0 < (a.x - b.x) ^ 2 + (a.y - b.y) ^ 2 ∧
        (a.x - b.x) ^ 2 + (a.y - b.y) ^ 2 < (2 * 100 + 50) ^ 2 := by
  obtain ⟨k, rfl⟩ : ∃ k, mi = k + 1 := ⟨mi - 1, by omega⟩
  refine ⟨nodeA 50 50, nodeB 250 50, ?_, by norm_num [nodeA, nodeB],
    by norm_num [nodeA, nodeB]⟩
  simp only [calculateOrthogonalLayout, Option.getD_some, Option.getD_none]
  have hinit : initializeNodes 100 50 [nodeA 0 0, nodeB 0 0]
      = [nodeA 0 0, nodeB 250 0] := by
    norm_num [initializeNodes, ceilSqrtNat, initFrom, nodeA, nodeB]
  rw [hinit]
  rw [show simLoop M 100 0.95 [edgeAB] (k + 1) ([nodeA 0 0, nodeB 250 0], 100)
      = simLoop M 100 0.95 [edgeAB] k
          (iterOnce M 100 100 [edgeAB] [nodeA 0 0, nodeB 250 0], 100 * 0.95)
    from rfl]
  rw [axisStep M 100 250 (by norm_num) (by norm_num) (by norm_num) (by norm_num)]
  rw [axisLoop M k (100 * 0.95) (by norm_num) (by norm_num)]
  norm_num [centerNodes, minQ, nodeA, nodeB]

/-- Witness for C9: the scenario at exactly 20 iterations. -/
theorem claim9_witness :
    20 ≤ 20 ∧
    ∃ a b : EntityNode Unit,
      calculateOrthogonalLayout canonModel [nodeA 0 0, nodeB 0 0] [edgeAB]
          { gridSize := some 100, maxIterations := some 20 } = [a, b] ∧
        0 < (a.x - b.x) ^ 2 + (a.y - b.y) ^ 2 ∧
        (a.x - b.x) ^ 2 + (a.y - b.y) ^ 2 < (2 * 100 + 50) ^ 2 :=
  ⟨by norm_num, claim9_two_nodes_converge canonModel 20 (by norm_num)⟩
